import Mathlib

/-!
Verification of the repair-assistant pipeline (`backend/agents/graph.py`).

The Python pipeline is shallowly embedded: every node of the LangGraph
state graph becomes a Lean function over an explicit state record, the
external collaborators (iFixit directory, web search, the Gemini stream,
the usage sink, `json.loads`) become oracle parameters, and the fixed
strings of the source are transcribed verbatim.  Machine arithmetic is
Nat (Python ints are unbounded); Python `//` on non-negative ints is Nat
division.
-/

namespace RepairFix

/-! ## String primitives mirroring Python's `in`, `.lower()`, `.strip()` -/

/-- Contiguous-sublist test: `pat` occurs somewhere in the list. -/
def listContains (pat : List Char) : List Char → Bool
  | [] => pat.isEmpty
  | c :: rest => pat.isPrefixOf (c :: rest) || listContains pat rest

/-- Python's substring test `pat in s`. -/
def strContains (s pat : String) : Bool :=
  listContains pat.data s.data

/-- The ASCII characters Python's `\s` class and `str.strip()` treat as
whitespace. -/
def isPySpace (c : Char) : Bool :=
  c = ' ' || c = '\t' || c = '\n' || c = '\x0d' || c = '\x0b' || c = '\x0c'

/-- Python `str.strip()`: drop leading and trailing whitespace. -/
def pyStrip (s : String) : String :=
  ⟨((s.data.dropWhile isPySpace).reverse.dropWhile isPySpace).reverse⟩

/-- Python `str.lower()`, character by character (ASCII; the matching
heuristics of the source only involve ASCII keywords). -/
def pyLower (s : String) : String :=
  ⟨s.data.map Char.toLower⟩

/-! ## Result entries

`ifixit_results` / `web_results` entries are dicts `{type, content}`. -/

structure RItem where
  type : String
  content : String
deriving DecidableEq, Repr

/-! ## Node 3: `route_results` (graph.py lines 93–115) -/

/-- The per-entry usefulness test of `route_results`, transcribed from the
body of its loop. -/
def has_useful_result (r : RItem) : Bool :=
  let content := pyLower r.content
  (((strContains content "found devices:" || strContains content "found guides:")
      && strContains r.content "-")
    || (strContains content "[guide]" && strContains content "url:")
    || (strContains content "ifixit.com" && strContains content "url:"))
  && (!strContains content "no results found"
      && !strContains content "no devices found"
      && r.type != "error")

/-- The loop of `route_results`: scan the entries, return true at the first
useful one. -/
def route_results : List RItem → Bool
  | [] => false
  | r :: rs => if has_useful_result r then true else route_results rs

/-! ## Device-title extraction (`_extract_device_title`, lines 302–321)

The two `re.search` patterns are hand-compiled to scanners over the
character list; `json.loads` plus the title/name lookup of the structured
branch is an oracle `jt` (`none` models a parse failure, which the
source's `except` turns into `""`). -/

/-- Leftmost match of `-\s*([^(]+)\s*\(URL:` followed by `.strip()` of
group 1.  At a `-`, the candidate group is everything up to the first
`(`, which must begin `(URL:`; stripping makes the greedy whitespace
split immaterial. -/
def matchDashURL : List Char → Option String
  | [] => none
  | c :: rest =>
    if c = '-' then
      let between := rest.takeWhile (fun x => x ≠ '(')
      let tail := rest.dropWhile (fun x => x ≠ '(')
      if !between.isEmpty && "(URL:".data.isPrefixOf tail then
        some (pyStrip ⟨between⟩)
      else matchDashURL rest
    else matchDashURL rest

/-- Leftmost match of `Device:\s*([^\n]+)` followed by `.strip()` of
group 1.  After a literal `Device:` the pattern matches iff some later
character on any line is not a newline, and the stripped group is the
rest of the line at the first non-whitespace character. -/
def matchDeviceLabel : List Char → Option String
  | [] => none
  | c :: rest =>
    if "Device:".data.isPrefixOf (c :: rest) then
      let after := (c :: rest).drop 7
      if after.any (fun x => x ≠ '\n') then
        let r0 := after.dropWhile isPySpace
        some (pyStrip ⟨r0.takeWhile (fun x => x ≠ '\n')⟩)
      else matchDeviceLabel rest
    else matchDeviceLabel rest

/-- `_extract_device_title`: dash/URL pattern, else `Device:` pattern, else
the structured-data branch through the `json.loads` oracle `jt`. -/
def extract_device_title (jt : String → Option String) (device_result : String) : String :=
  match matchDashURL device_result.data with
  | some t => t
  | none =>
    match matchDeviceLabel device_result.data with
    | some t => t
    | none =>
      if device_result.startsWith "\x7b" || device_result.startsWith "[" then
        (jt device_result).getD ""
      else ""

/-! ## Guide-id extraction (`_extract_guide_id`, lines 324–349) -/

/-- `re.findall` of `\[(\d+)\]`: every bracketed digit run, in text order. -/
def bracketIds : List Char → List String
  | [] => []
  | c :: rest =>
    (if c = '[' then
      let ds := rest.takeWhile Char.isDigit
      if !ds.isEmpty && (rest.dropWhile Char.isDigit).headD ' ' = ']' then
        [String.mk ds]
      else []
     else []) ++ bracketIds rest

/-- `re.findall` of `(?:ID|id):\s*(\d+)`: digit runs after an `ID:`/`id:`
label and optional whitespace. -/
def labelIds : List Char → List String
  | [] => []
  | c :: rest =>
    (if "ID:".data.isPrefixOf (c :: rest) || "id:".data.isPrefixOf (c :: rest) then
      let r := ((c :: rest).drop 3).dropWhile isPySpace
      let ds := r.takeWhile Char.isDigit
      if ds.isEmpty then [] else [String.mk ds]
     else []) ++ labelIds rest

/-- First match of `\[(\d+)\][^\n]*(kw₁|…|kwₙ)` under `re.IGNORECASE`,
returning group 1: the first bracketed id whose remaining line contains
one of the (lower-case) keywords. -/
def lineKwId (kws : List String) : List Char → Option String
  | [] => none
  | c :: rest =>
    if c = '[' then
      let ds := rest.takeWhile Char.isDigit
      let after := rest.dropWhile Char.isDigit
      if !ds.isEmpty && after.headD ' ' = ']' then
        let line := (after.tail.takeWhile (fun x => x ≠ '\n')).map Char.toLower
        if kws.any (fun kw => listContains kw.data line) then some (String.mk ds)
        else lineKwId kws rest
      else lineKwId kws rest
    else lineKwId kws rest

def kwGroup1 : List String := ["disc", "drive", "disk", "dvd", "cd", "blu"]
def lineKws1 : List String := ["disc", "drive", "disk"]
def kwGroup2 : List String := ["screen", "display", "lcd", "glass"]
def lineKws2 : List String := ["screen", "display", "lcd"]

/-- `_extract_guide_id`: collect bracketed ids (falling back to labelled
ids), then re-rank by the keyword groups of the normalized query in fixed
priority, defaulting to the first collected id. -/
def extract_guide_id (guides_result user_query : String) : String :=
  let ids0 := bracketIds guides_result.data
  let ids := if ids0.isEmpty then labelIds guides_result.data else ids0
  if ids.isEmpty then ""
  else
    let g := guides_result.data
    match (if kwGroup1.any (fun w => strContains user_query w) then lineKwId lineKws1 g else none) with
    | some i => i
    | none =>
      match (if kwGroup2.any (fun w => strContains user_query w) then lineKwId lineKws2 g else none) with
      | some i => i
      | none =>
        match (if strContains user_query "batter" then lineKwId ["batter"] g else none) with
        | some i => i
        | none => ids.headD ""

/-! ## External collaborators as oracles

A sub-call either returns text or raises; `err m` carries Python's
`str(e)`. -/

inductive CallRes where
  | ok (result : String)
  | err (msg : String)
deriving DecidableEq, Repr

/-- The device/guide directory (`tools_ifixit`), one function per tool. -/
structure DirOracle where
  find_device : String → CallRes
  list_guides : String → CallRes
  get_guide : String → CallRes

/-- One observable directory call, recorded in the embedding's trace. -/
inductive DirCall where
  | findDevice (query : String)
  | listGuides (device_title : String)
  | getGuide (guide_id : String)
deriving DecidableEq, Repr

/-! ## Node 2: `ifixit_search` (lines 48–89) -/

/-- Steps (b) and (c) of the lookup stage: guide listing for an extracted
title and guide detail for an extracted id, each failure recorded as one
error entry and skipping what depends on it. -/
def ifixit_guides (o : DirOracle) (nq dt : String) : List RItem × List DirCall :=
  if dt = "" then ([], [])
  else
    match o.list_guides dt with
    | .err e => ([⟨"error", "Guides list error: " ++ e⟩], [.listGuides dt])
    | .ok g =>
      let gid := extract_guide_id g nq
      if gid = "" then ([⟨"guides_list", g⟩], [.listGuides dt])
      else
        match o.get_guide gid with
        | .err e =>
          ([⟨"guides_list", g⟩, ⟨"error", "Guide detail error: " ++ e⟩],
           [.listGuides dt, .getGuide gid])
        | .ok d =>
          ([⟨"guides_list", g⟩, ⟨"guide_detail", d⟩],
           [.listGuides dt, .getGuide gid])

/-- The partial state update `ifixit_search` returns: `title_update` /
`found_update` are `none` when the Python dict omits that key. -/
structure SearchOut where
  ifixit_results : List RItem
  title_update : Option (Option String)
  found_update : Option Bool
  calls : List DirCall

/-- `ifixit_search`: device search, then (via `ifixit_guides`) guide
listing and guide detail, with `jt` the `json.loads` oracle of
title extraction. -/
def ifixit_search (o : DirOracle) (jt : String → Option String) (uq nq : String) : SearchOut :=
  if uq = "" then ⟨[], none, some false, []⟩
  else
    match o.find_device uq with
    | .err e =>
      ⟨[⟨"error", "Device search error: " ++ e⟩], some none, none, [.findDevice uq]⟩
    | .ok device_result =>
      let dt := extract_device_title jt device_result
      let p := ifixit_guides o nq dt
      ⟨⟨"device_search", device_result⟩ :: p.1, some (some dt), none,
       .findDevice uq :: p.2⟩

/-! ## Node 4: `web_search_fallback` (lines 119–132) -/

/-- The fallback stage; the second component lists the queries actually
sent to the web-search collaborator. -/
def web_search_fallback (ws : String → CallRes) (ifixit_found : Bool) (uq : String) :
    List RItem × List String :=
  if ifixit_found || uq = "" then ([], [])
  else
    match ws uq with
    | .ok r => ([⟨"web_search", r⟩], [uq])
    | .err e => ([⟨"error", "Web search error: " ++ e⟩], [uq])

/-! ## Node 5: `manage_context` (lines 136–170) -/

/-- One loop iteration of `manage_context` over `ifixit_results`: the
sections the entry contributes. -/
def renderItem (ifixit_found : Bool) (r : RItem) : List String :=
  if r.type = "device_search" then ["iFixit Search:\n" ++ r.content]
  else if r.type = "guides_list" then ["Available Guides:\n" ++ r.content]
  else if r.type = "guide_detail" then ["Guide Details:\n" ++ r.content]
  else if r.type = "error" && !ifixit_found then ["Note: " ++ r.content]
  else []

/-- `manage_context`: `(combined_context, has_results)`. -/
def manage_context (ifixit_results web_results : List RItem) (ifixit_found : Bool) :
    String × Bool :=
  let parts :=
    ifixit_results.flatMap (renderItem ifixit_found)
    ++ (if ifixit_found then []
        else web_results.map (fun r => "Web Search (unofficial sources):\n" ++ r.content))
  (String.intercalate "\n\n" parts, !parts.isEmpty)

/-! ## Node 6: `format_markdown` (lines 174–216) -/

def couldntFindMsg : String :=
  "I couldn't find any information about that. Could you try rephrasing your question?"

/-- The f-string prompt of `format_markdown`, transcribed verbatim. -/
def formatPromptText (user_query combined_context : String) : String :=
  "You are a friendly, helpful repair assistant - like ChatGPT but specialized in device repairs. Your personality is warm, encouraging, and empathetic.\n\nUser asked: "
  ++ user_query
  ++ "\n\nTool Results:\n"
  ++ combined_context
  ++ "\n\nInstructions for your response:\n1. START with empathy and acknowledgment of their problem (e.g., \"Oh no, that's frustrating!\" or \"I can definitely help with that!\")\n2. Be conversational and natural - use contractions, casual language, and show personality\n3. If iFixit has official guides, present them enthusiastically as the best solution\n4. If only web results exist, acknowledge iFixit doesn't have a guide YET but you found helpful community tips\n5. Format clearly with:\n   - Friendly headings (not just \"Step 1\")\n   - Bullet points for lists\n   - Bold for important points\n   - Emojis occasionally (💡 for tips, 🔧 for tools, ⚠️ for warnings)\n6. Include \"Pro Tips\" or \"What to try first\" sections when relevant\n7. End with \"What else can I help with?\" or offer next steps\n8. If showing repair steps with images, format like: \"**Step 1:** [instruction]\" with image links\n9. Keep tone positive and encouraging - repair is empowering!\n\nBe helpful, friendly, and conversational like you're a knowledgeable friend helping them out:"

/-! ## Node 7: `stream_response` with `_stream_with_retry` (lines 220–299) -/

/-- A failure raised by the model stream: a `ChatGoogleGenerativeAIError`
(the only class the retry loop catches) or any other exception. -/
inductive StreamFail where
  | googleErr (msg : String)
  | otherExc (msg : String)
deriving DecidableEq, Repr

/-- Python's `str(e)`. -/
def failMsg : StreamFail → String
  | .googleErr m => m
  | .otherExc m => m

/-- Whether the retry loop's `except` branch treats the failure as a
rate limit: a `ChatGoogleGenerativeAIError` whose text mentions
RESOURCE_EXHAUSTED or 429. -/
def caughtRateLimit : StreamFail → Bool
  | .googleErr m => strContains m "RESOURCE_EXHAUSTED" || strContains m "429"
  | .otherExc _ => false

/-- One behaviour of `model.astream`: the chunk contents it produces in
order, then `none` (clean end) or `some` failure raised afterwards. -/
structure Attempt where
  chunks : List String
  fail : Option StreamFail
deriving Repr

/-- What draining `_stream_with_retry` observably does: the non-empty
chunks yielded (across all attempts), the sleeps performed, the failure
re-raised if any, and how many times `model.astream` was entered. -/
structure RetryOut where
  chunks : List String
  delays : List Nat
  outcome : Option StreamFail
  attemptsMade : Nat
deriving Repr

/-- One iteration of the `while True` loop of `_stream_with_retry` at
loop counter `attempt`: yield the attempt's non-empty chunks, then
return on a clean stream end, re-raise a non-rate-limit failure or one
at the retry cap, and otherwise sleep `base * 2 ^ attempt` and continue
with the next iteration's result `next` (`none` only when the embedding
is out of fuel, which enough fuel makes unreachable). -/
def retryStep (attempts : Nat → Attempt) (max_retries base attempt : Nat)
    (next : Option RetryOut) : RetryOut :=
  let a := attempts attempt
  let ch := a.chunks.filter (fun c => c ≠ "")
  match a.fail with
  | none => ⟨ch, [], none, 1⟩
  | some f =>
    if caughtRateLimit f then
      if max_retries ≤ attempt then ⟨ch, [], some f, 1⟩
      else
        match next with
        | none => ⟨ch, [], some f, 1⟩
        | some r => ⟨ch ++ r.chunks, base * 2 ^ attempt :: r.delays,
                     r.outcome, r.attemptsMade + 1⟩
    else ⟨ch, [], some f, 1⟩

/-- The `while True` loop of `_stream_with_retry`, with `attempt` the
loop counter and enough fuel for the bounded retries. -/
def streamRetryFrom (attempts : Nat → Attempt) (max_retries base : Nat) :
    Nat → Nat → RetryOut
  | attempt, 0 => retryStep attempts max_retries base attempt none
  | attempt, fuel + 1 =>
    retryStep attempts max_retries base attempt
      (some (streamRetryFrom attempts max_retries base (attempt + 1) fuel))

/-- `_stream_with_retry(messages)` with its default `max_retries=3`,
`base_delay=2` as called by `stream_response`; `attempts i` is what the
model stream does on its i-th invocation. -/
def stream_with_retry (attempts : Nat → Attempt) (max_retries base : Nat) : RetryOut :=
  streamRetryFrom attempts max_retries base 0 max_retries

/-- `stream_response` as a function of `format_prompt` and
`combined_context`: `(formatted_response, completion_tokens, model
invocations)`. -/
def stream_response (attempts : Nat → Attempt) (format_prompt combined_context : String) :
    String × Nat × Nat :=
  if format_prompt = "" then ("Unable to format response.", 0, 0)
  else
    let r := stream_with_retry attempts 3 2
    match r.outcome with
    | none =>
      let full := String.join r.chunks
      (full, full.length / 4, r.attemptsMade)
    | some f =>
      ("Error formatting response: " ++ failMsg f ++ "\n\nRaw results:\n" ++ combined_context,
       0, r.attemptsMade)

/-! ## Node 8: `usage_analytics` (lines 253–266) -/

/-- Python truthiness of the optional `user_id`. -/
def optTruthy : Option String → Bool
  | none => false
  | some s => s != ""

structure UsageOut where
  total_tokens : Nat
  trackCalls : List (String × Nat)
deriving DecidableEq, Repr

/-- `usage_analytics`; `track_fails` records whether the
`track_token_usage` call-out raises (the stage catches and only prints,
so the result cannot depend on it). -/
def usage_analytics (_track_fails : Bool) (user_id : Option String)
    (prompt_tokens completion_tokens : Nat) : UsageOut :=
  let total := prompt_tokens + completion_tokens
  { total_tokens := total
    trackCalls :=
      if optTruthy user_id && decide (0 < total) then [(user_id.getD "", total)] else [] }

/-! ## The pipeline (graph construction, lines 352–380) -/

inductive Role where
  | user
  | assistant
deriving DecidableEq, Repr

structure Msg where
  role : Role
  content : String
deriving DecidableEq, Repr

/-- The scan of `normalize_input` over `reversed(messages)`: the content
of the last user message. -/
def lastUserContent : List Msg → Option String
  | [] => none
  | m :: rest =>
    match lastUserContent rest with
    | some q => some q
    | none => if m.role = .user then some m.content else none

/-- The turn state threaded through the graph.  Each field's default is
the value the Python nodes read with `state.get(key, default)` when the
key is absent, so a fresh state is all defaults. -/
structure PState where
  messages : List Msg := []
  user_id : Option String := none
  user_query : String := ""
  normalized_query : String := ""
  ifixit_results : List RItem := []
  device_title : Option String := none
  ifixit_found : Bool := false
  web_results : List RItem := []
  combined_context : String := ""
  has_results : Bool := false
  format_prompt : String := ""
  prompt_tokens : Nat := 0
  formatted_response : String := ""
  completion_tokens : Nat := 0
  total_tokens : Nat := 0

/-- External calls the pipeline makes, in order, per kind. -/
structure Trace where
  dirCalls : List DirCall := []
  webCalls : List String := []
  modelCalls : Nat := 0
  trackCalls : List (String × Nat) := []
deriving Repr

def Trace.append (a b : Trace) : Trace :=
  ⟨a.dirCalls ++ b.dirCalls, a.webCalls ++ b.webCalls,
   a.modelCalls + b.modelCalls, a.trackCalls ++ b.trackCalls⟩

/-- Every external collaborator of one turn. -/
structure Oracles where
  dir : DirOracle
  jt : String → Option String
  web : String → CallRes
  attempts : Nat → Attempt
  track_fails : Bool

/-- Node 1, `normalize_input`. -/
def normalize_node (s : PState) : PState :=
  match lastUserContent s.messages with
  | some q => { s with user_query := q, normalized_query := pyStrip (pyLower q) }
  | none =>
    { s with user_query := "", normalized_query := "",
             messages := s.messages ++ [⟨.assistant, "Please ask a repair question."⟩] }

/-- Node 2 wrapped as a state transformer, merging the partial update. -/
def ifixit_node (o : Oracles) (s : PState) : PState × Trace :=
  let out := ifixit_search o.dir o.jt s.user_query s.normalized_query
  ({ s with ifixit_results := out.ifixit_results,
            device_title := out.title_update.getD s.device_title,
            ifixit_found := out.found_update.getD s.ifixit_found },
   { dirCalls := out.calls })

/-- Node 3. -/
def route_node (s : PState) : PState :=
  { s with ifixit_found := route_results s.ifixit_results }

/-- Node 4. -/
def web_node (o : Oracles) (s : PState) : PState × Trace :=
  let p := web_search_fallback o.web s.ifixit_found s.user_query
  ({ s with web_results := p.1 }, { webCalls := p.2 })

/-- Node 5. -/
def manage_node (s : PState) : PState :=
  let p := manage_context s.ifixit_results s.web_results s.ifixit_found
  { s with combined_context := p.1, has_results := p.2 }

/-- Node 6.  In the no-results branch only `formatted_response` and
`prompt_tokens` are written: `format_prompt` keeps its prior value. -/
def format_node (s : PState) : PState :=
  if !s.has_results then
    { s with formatted_response := couldntFindMsg, prompt_tokens := 0 }
  else
    let p := formatPromptText s.user_query s.combined_context
    { s with format_prompt := p, prompt_tokens := p.length / 4 }

/-- Node 7. -/
def stream_node (o : Oracles) (s : PState) : PState × Trace :=
  let p := stream_response o.attempts s.format_prompt s.combined_context
  ({ s with formatted_response := p.1, completion_tokens := p.2.1 }, { modelCalls := p.2.2 })

/-- Node 8. -/
def usage_node (o : Oracles) (s : PState) : PState × Trace :=
  let u := usage_analytics o.track_fails s.user_id s.prompt_tokens s.completion_tokens
  ({ s with total_tokens := u.total_tokens }, { trackCalls := u.trackCalls })

/-- Node 9, `checkpoint_save`. -/
def checkpoint_node (s : PState) : PState :=
  if s.formatted_response != "" then
    { s with messages := s.messages ++ [⟨.assistant, s.formatted_response⟩] }
  else
    { s with messages := s.messages ++ [⟨.assistant, "Sorry, I couldn't process that request."⟩] }

/-- The linear edge sequence up to and including `format_markdown`. -/
def runToFormat (o : Oracles) (uid : Option String) (msgs : List Msg) : PState × Trace :=
  let s1 := normalize_node { user_id := uid, messages := msgs }
  let p2 := ifixit_node o s1
  let s3 := route_node p2.1
  let p4 := web_node o s3
  let s5 := manage_node p4.1
  (format_node s5, Trace.append p2.2 p4.2)

/-- One full turn of the compiled graph on a fresh state. -/
def runPipeline (o : Oracles) (uid : Option String) (msgs : List Msg) : PState × Trace :=
  let p6 := runToFormat o uid msgs
  let p7 := stream_node o p6.1
  let p8 := usage_node o p7.1
  (checkpoint_node p8.1, Trace.append p6.2 (Trace.append p7.2 p8.2))

/-! ## Specification-side definitions and concrete fixtures -/

/-- Kind-specific label of a non-error directory entry, as §4.4 of the
spec words it (device search / available guides / guide details). -/
def specLabel (t : String) : String :=
  if t = "device_search" then "iFixit Search:\n"
  else if t = "guides_list" then "Available Guides:\n"
  else "Guide Details:\n"

/-- Context assembly as the spec words it: every directory entry with its
kind-specific label — non-error entries always, error entries only when
no official source was found — then, only in that case, every web entry
under the unofficial-source label. -/
def sectionsSpec (found : Bool) (dir web : List RItem) : List String :=
  dir.flatMap (fun r =>
    if r.type = "error" then (if found then [] else ["Note: " ++ r.content])
    else [specLabel r.type ++ r.content])
  ++ (if found then []
      else web.map (fun r => "Web Search (unofficial sources):\n" ++ r.content))

/-- The guide-list text of the spec's extraction example. -/
def guidesSample : String := "[101] Battery Replacement\n[102] Screen Replacement"

/-- A turn whose external collaborators are all down and whose model
stream produces nothing: a concrete input for closed instances. -/
def oraclesDown : Oracles :=
  ⟨⟨fun _ => .err "down", fun _ => .err "down", fun _ => .err "down"⟩,
   fun _ => none, fun _ => .err "down", fun _ => ⟨[], none⟩, false⟩

/-- A model stream that yields one chunk then rate-limits on each of the
first two attempts, and succeeds with one chunk on the third. -/
def attemptsRetry : Nat → Attempt := fun i =>
  if i = 0 then ⟨["a"], some (.googleErr "429 quota hit")⟩
  else if i = 1 then ⟨["b"], some (.googleErr "RESOURCE_EXHAUSTED")⟩
  else ⟨["c"], none⟩

/-! # Claim theorems -/

/-! ## C4: routing is a pure scan of `ifixit_results` -/

lemma route_results_eq_any (rs : List RItem) :
    route_results rs = rs.any has_useful_result := by
  induction rs with
  | nil => rfl
  | cons r rs ih =>
    simp only [route_results, List.any_cons, ih]
    cases has_useful_result r <;> simp

lemma has_useful_result_iff (r : RItem) :
    has_useful_result r = true ↔
      r.type ≠ "error"
      ∧ (((strContains (pyLower r.content) "found devices:" = true
            ∨ strContains (pyLower r.content) "found guides:" = true)
           ∧ strContains r.content "-" = true)
         ∨ (strContains (pyLower r.content) "[guide]" = true
            ∧ strContains (pyLower r.content) "url:" = true)
         ∨ (strContains (pyLower r.content) "ifixit.com" = true
            ∧ strContains (pyLower r.content) "url:" = true))
      ∧ strContains (pyLower r.content) "no results found" = false
      ∧ strContains (pyLower r.content) "no devices found" = false := by
  unfold has_useful_result
  simp only [Bool.and_eq_true, Bool.or_eq_true, Bool.not_eq_true', bne_iff_ne, ne_eq]
  tauto

/-- C4: `route_results` computes `ifixit_found` as a pure function of the
directory results alone: it scans the entries, stopping at the first
qualifying one, and is true iff some entry is non-error, carries a
positive signal ("found devices:"/"found guides:" with a "-" marker, or
"[guide]" with "url:", or "ifixit.com" with "url:"), and carries neither
negative signal; equal inputs give equal outputs. -/
theorem route_results_characterization (rs : List RItem) :
    route_results rs = rs.any has_useful_result
    ∧ (route_results rs = true ↔ ∃ r ∈ rs,
        r.type ≠ "error"
        ∧ (((strContains (pyLower r.content) "found devices:" = true
              ∨ strContains (pyLower r.content) "found guides:" = true)
             ∧ strContains r.content "-" = true)
           ∨ (strContains (pyLower r.content) "[guide]" = true
              ∧ strContains (pyLower r.content) "url:" = true)
           ∨ (strContains (pyLower r.content) "ifixit.com" = true
              ∧ strContains (pyLower r.content) "url:" = true))
        ∧ strContains (pyLower r.content) "no results found" = false
        ∧ strContains (pyLower r.content) "no devices found" = false)
    ∧ (∀ r rs', has_useful_result r = true → route_results (r :: rs') = true)
    ∧ (∀ rs', rs = rs' → route_results rs = route_results rs') := by
  refine ⟨route_results_eq_any rs, ?_, ?_, ?_⟩
  · rw [route_results_eq_any, List.any_eq_true]
    exact exists_congr fun r => and_congr_right fun _ => has_useful_result_iff r
  · intro r rs' h
    simp [route_results, h]
  · intro rs' h
    rw [h]

/-! ## C5: guide-id keyword priority -/

/-- C5: guide-id extraction applies the fixed keyword-group priority over
the normalized query (disc group before screen group before battery),
returns the first bracketed id on a line matching a group present in the
query, and falls back to the first extracted id when no group matches
any line; on the sample guide list, a query containing "screen" yields
"102" and a query containing no keyword of any group yields "101". -/
theorem guide_id_priority :
    (∀ q, strContains q "screen" = true → extract_guide_id guidesSample q = "102")
    ∧ (∀ q, (∀ w ∈ kwGroup1 ++ kwGroup2 ++ ["batter"], strContains q w = false) →
        extract_guide_id guidesSample q = "101")
    ∧ (∀ g q i, kwGroup1.any (fun w => strContains q w) = true →
        lineKwId lineKws1 g.data = some i → (bracketIds g.data).isEmpty = false →
        extract_guide_id g q = i)
    ∧ (∀ g q, (bracketIds g.data).isEmpty = false →
        lineKwId lineKws1 g.data = none → lineKwId lineKws2 g.data = none →
        lineKwId ["batter"] g.data = none →
        extract_guide_id g q = (bracketIds g.data).headD "") := by
  have hb : (bracketIds guidesSample.data).isEmpty = false := by decide
  have hids : bracketIds guidesSample.data = ["101", "102"] := by decide
  have hk1 : lineKwId lineKws1 guidesSample.data = none := by decide
  have hk2 : lineKwId lineKws2 guidesSample.data = some "102" := by decide
  refine ⟨?_, ?_, ?_, ?_⟩
  · intro q hq
    have hg2 : kwGroup2.any (fun w => strContains q w) = true :=
      List.any_eq_true.mpr ⟨"screen", by simp [kwGroup2], hq⟩
    unfold extract_guide_id
    by_cases hg1 : kwGroup1.any (fun w => strContains q w) = true
    · simp [hb, hids, hk1, hk2, hg1, hg2]
    · simp [hb, hids, hk1, hk2, hg1, hg2]
  · intro q habs
    have hg1 : kwGroup1.any (fun w => strContains q w) = false := by
      refine Bool.eq_false_iff.mpr fun hc => ?_
      obtain ⟨w, hw, hpw⟩ := List.any_eq_true.mp hc
      rw [habs w (by simp [List.mem_append, hw])] at hpw
      exact Bool.false_ne_true hpw
    have hg2 : kwGroup2.any (fun w => strContains q w) = false := by
      refine Bool.eq_false_iff.mpr fun hc => ?_
      obtain ⟨w, hw, hpw⟩ := List.any_eq_true.mp hc
      rw [habs w (by simp [List.mem_append, hw])] at hpw
      exact Bool.false_ne_true hpw
    have hbat : strContains q "batter" = false :=
      habs "batter" (by simp)
    unfold extract_guide_id
    simp [hb, hids, hg1, hg2, hbat]
  · intro g q i hg1 hline hbne
    unfold extract_guide_id
    simp [hbne, hg1, hline]
  · intro g q hbne hl1 hl2 hl3
    unfold extract_guide_id
    simp [hbne, hl1, hl2, hl3]

/-! ## C6: device-title extraction -/

/-- C6: device-title extraction tries, in priority order, the dash/URL
pattern, the `Device:` label pattern, and (for structured text) the
title/name key: "- PlayStation 5 (URL: http://x)" yields
"PlayStation 5", and an input matching no pattern that is not
structured yields the absent (empty) title, after which the lookup
stage makes no guide-listing or guide-detail call. -/
theorem device_title_extraction :
    (∀ jt, extract_device_title jt "- PlayStation 5 (URL: http://x)" = "PlayStation 5")
    ∧ (∀ jt dr, matchDashURL dr.data = none → matchDeviceLabel dr.data = none →
        dr.startsWith "\x7b" = false → dr.startsWith "[" = false →
        extract_device_title jt dr = ""
        ∧ (∀ o uq nq, uq ≠ "" → o.find_device uq = .ok dr →
            (ifixit_search o jt uq nq).ifixit_results = [⟨"device_search", dr⟩]
            ∧ (ifixit_search o jt uq nq).calls = [.findDevice uq])) := by
  constructor
  · intro jt
    have h : matchDashURL ("- PlayStation 5 (URL: http://x)").data = some "PlayStation 5" := by
      decide
    simp [extract_device_title, h]
  · intro jt dr h1 h2 h3 h4
    have he : extract_device_title jt dr = "" := by
      simp [extract_device_title, h1, h2, h3, h4]
    refine ⟨he, ?_⟩
    intro o uq nq hq hfd
    simp [ifixit_search, hq, hfd, he, ifixit_guides]

/-! ## C7: the lookup stage never aborts on a sub-call failure -/

/-- C7: each failing sub-call of the directory stage is recorded as
exactly one error entry appended to the results, the dependent steps are
skipped while the stage still returns normally with the entries
collected so far, and an absent device title ends the stage after the
device-search step with no further calls. -/
theorem ifixit_search_error_handling (o : DirOracle) (jt : String → Option String)
    (uq nq : String) (h : uq ≠ "") :
    (∀ e, o.find_device uq = .err e →
      ifixit_search o jt uq nq =
        ⟨[⟨"error", "Device search error: " ++ e⟩], some none, none, [.findDevice uq]⟩)
    ∧ (∀ r, o.find_device uq = .ok r → extract_device_title jt r = "" →
      ifixit_search o jt uq nq =
        ⟨[⟨"device_search", r⟩], some (some ""), none, [.findDevice uq]⟩)
    ∧ (∀ r dt e, o.find_device uq = .ok r → extract_device_title jt r = dt → dt ≠ "" →
        o.list_guides dt = .err e →
      ifixit_search o jt uq nq =
        ⟨[⟨"device_search", r⟩, ⟨"error", "Guides list error: " ++ e⟩],
         some (some dt), none, [.findDevice uq, .listGuides dt]⟩)
    ∧ (∀ r dt g, o.find_device uq = .ok r → extract_device_title jt r = dt → dt ≠ "" →
        o.list_guides dt = .ok g → extract_guide_id g nq = "" →
      ifixit_search o jt uq nq =
        ⟨[⟨"device_search", r⟩, ⟨"guides_list", g⟩],
         some (some dt), none, [.findDevice uq, .listGuides dt]⟩)
    ∧ (∀ r dt g gid e, o.find_device uq = .ok r → extract_device_title jt r = dt → dt ≠ "" →
        o.list_guides dt = .ok g → extract_guide_id g nq = gid → gid ≠ "" →
        o.get_guide gid = .err e →
      ifixit_search o jt uq nq =
        ⟨[⟨"device_search", r⟩, ⟨"guides_list", g⟩, ⟨"error", "Guide detail error: " ++ e⟩],
         some (some dt), none, [.findDevice uq, .listGuides dt, .getGuide gid]⟩)
    ∧ (∀ r dt g gid d, o.find_device uq = .ok r → extract_device_title jt r = dt → dt ≠ "" →
        o.list_guides dt = .ok g → extract_guide_id g nq = gid → gid ≠ "" →
        o.get_guide gid = .ok d →
      ifixit_search o jt uq nq =
        ⟨[⟨"device_search", r⟩, ⟨"guides_list", g⟩, ⟨"guide_detail", d⟩],
         some (some dt), none, [.findDevice uq, .listGuides dt, .getGuide gid]⟩) := by
  refine ⟨?_, ?_, ?_, ?_, ?_, ?_⟩
  · intro e hfd
    simp [ifixit_search, h, hfd]
  · intro r hfd hex
    simp [ifixit_search, ifixit_guides, h, hfd, hex]
  · intro r dt e hfd hex hdt hlg
    simp [ifixit_search, ifixit_guides, h, hfd, hex, hdt, hlg]
  · intro r dt g hfd hex hdt hlg hgid
    simp [ifixit_search, ifixit_guides, h, hfd, hex, hdt, hlg, hgid]
  · intro r dt g gid e hfd hex hdt hlg hgid hne hgg
    simp [ifixit_search, ifixit_guides, h, hfd, hex, hdt, hlg, hgid, hne, hgg]
  · intro r dt g gid d hfd hex hdt hlg hgid hne hgg
    simp [ifixit_search, ifixit_guides, h, hfd, hex, hdt, hlg, hgid, hne, hgg]

/-- Witness for C7: a concrete turn whose device search fails is recorded
as exactly one error entry and makes no further call. -/
theorem ifixit_search_error_handling_witness :
    ifixit_search oraclesDown.dir oraclesDown.jt "fix my ps5" "fix my ps5" =
      ⟨[⟨"error", "Device search error: down"⟩], some none, none, [.findDevice "fix my ps5"]⟩ :=
  (ifixit_search_error_handling oraclesDown.dir oraclesDown.jt "fix my ps5" "fix my ps5"
    (by decide)).1 "down" rfl

/-! ## C8: context assembly -/

lemma listFlatMapCongr {α β : Type} (l : List α) (f g : α → List β)
    (h : ∀ x ∈ l, f x = g x) : l.flatMap f = l.flatMap g := by
  induction l with
  | nil => rfl
  | cons a l ih =>
    simp only [List.flatMap_cons]
    rw [h a (by simp), ih fun x hx => h x (by simp [hx])]

lemma renderItem_eq_spec (found : Bool) (r : RItem)
    (hk : r.type = "device_search" ∨ r.type = "guides_list"
          ∨ r.type = "guide_detail" ∨ r.type = "error") :
    renderItem found r =
      (if r.type = "error" then (if found then [] else ["Note: " ++ r.content])
       else [specLabel r.type ++ r.content]) := by
  rcases hk with h | h | h | h <;> cases found <;> simp [renderItem, specLabel, h]

/-- C8: on entries of the four directory kinds, context assembly renders,
in input order, every non-error directory entry with its kind label,
error entries only when no official source was found, then — only in
that case — every web entry under the unofficial-source label, joined by
blank lines; `has_results` is true iff at least one section was
produced, and equal inputs give byte-identical output. -/
theorem manage_context_spec (dir web : List RItem) (found : Bool)
    (hk : ∀ r ∈ dir, r.type = "device_search" ∨ r.type = "guides_list"
          ∨ r.type = "guide_detail" ∨ r.type = "error") :
    manage_context dir web found =
      (String.intercalate "\n\n" (sectionsSpec found dir web),
       !(sectionsSpec found dir web).isEmpty)
    ∧ ((manage_context dir web found).2 = true ↔ sectionsSpec found dir web ≠ [])
    ∧ (∀ dir' web' found', dir = dir' → web = web' → found = found' →
        manage_context dir web found = manage_context dir' web' found') := by
  have hfm : dir.flatMap (renderItem found)
      = dir.flatMap (fun r =>
          if r.type = "error" then (if found then [] else ["Note: " ++ r.content])
          else [specLabel r.type ++ r.content]) :=
    listFlatMapCongr dir _ _ fun r hr => renderItem_eq_spec found r (hk r hr)
  have hm : manage_context dir web found =
      (String.intercalate "\n\n" (sectionsSpec found dir web),
       !(sectionsSpec found dir web).isEmpty) := by
    unfold manage_context sectionsSpec
    simp only [hfm]
  refine ⟨hm, ?_, ?_⟩
  · rw [hm]
    simp [List.isEmpty_iff]
  · intro dir' web' found' h1 h2 h3
    subst h1; subst h2; subst h3
    rfl

/-- Witness for C8 on a concrete directory/web result pair. -/
theorem manage_context_spec_witness :
    manage_context [⟨"device_search", "d"⟩, ⟨"error", "e"⟩] [⟨"web_search", "w"⟩] false =
      (String.intercalate "\n\n"
        (sectionsSpec false [⟨"device_search", "d"⟩, ⟨"error", "e"⟩] [⟨"web_search", "w"⟩]),
       !(sectionsSpec false [⟨"device_search", "d"⟩, ⟨"error", "e"⟩]
          [⟨"web_search", "w"⟩]).isEmpty) :=
  (manage_context_spec [⟨"device_search", "d"⟩, ⟨"error", "e"⟩] [⟨"web_search", "w"⟩] false
    (by decide)).1

/-! ## C9: no web results when an official source was found -/

lemma checkpoint_web (s : PState) : (checkpoint_node s).web_results = s.web_results := by
  unfold checkpoint_node; split <;> rfl

lemma checkpoint_found (s : PState) : (checkpoint_node s).ifixit_found = s.ifixit_found := by
  unfold checkpoint_node; split <;> rfl

lemma format_web (s : PState) : (format_node s).web_results = s.web_results := by
  unfold format_node; split <;> rfl

lemma format_found (s : PState) : (format_node s).ifixit_found = s.ifixit_found := by
  unfold format_node; split <;> rfl

/-- C9: the web-search fallback stage writes an empty `web_results` and
makes no web call whenever an official source was found (or the query is
empty); consequently in every final pipeline state with `ifixit_found`
true, `web_results` is the empty sequence. -/
theorem web_results_empty_when_found (ws : String → CallRes) (found : Bool) (uq : String)
    (h : found = true ∨ uq = "") :
    web_search_fallback ws found uq = ([], [])
    ∧ (∀ o uid msgs, (runPipeline o uid msgs).1.ifixit_found = true →
        (runPipeline o uid msgs).1.web_results = []) := by
  constructor
  · rcases h with h | h <;> simp [web_search_fallback, h]
  · intro o uid msgs hf
    simp only [runPipeline, runToFormat, checkpoint_web, checkpoint_found, usage_node,
      stream_node, format_web, format_found, manage_node, web_node, route_node] at hf ⊢
    simp [web_search_fallback, hf]

/-- Witness for C9 with the official-source flag set. -/
theorem web_results_empty_when_found_witness :
    web_search_fallback oraclesDown.web true "how do I fix my switch" = ([], []) :=
  (web_results_empty_when_found oraclesDown.web true "how do I fix my switch" (Or.inl rfl)).1

/-! ## C10: token accounting -/

/-- C10: the prompt estimate is `len(renderPrompt) / 4` (floor), the
completion estimate on the successful streaming path is
`len(finalReply) / 4`, the usage stage always writes
`prompt + completion` as the total, the usage call-out happens only when
an owner identity and a positive total are both present, and a failure
of that call-out cannot change the stage's result. -/
theorem token_accounting :
    (∀ s : PState, s.has_results = true →
      (format_node s).format_prompt = formatPromptText s.user_query s.combined_context
      ∧ (format_node s).prompt_tokens
          = (formatPromptText s.user_query s.combined_context).length / 4)
    ∧ (∀ att (fp cc : String), fp ≠ "" → (stream_with_retry att 3 2).outcome = none →
        (stream_response att fp cc).2.1 = (stream_response att fp cc).1.length / 4)
    ∧ (∀ b uid p c, (usage_analytics b uid p c).total_tokens = p + c)
    ∧ (∀ b uid p c, (usage_analytics b uid p c).trackCalls ≠ [] ↔
        (∃ u, uid = some u ∧ u ≠ "") ∧ 0 < p + c)
    ∧ (∀ b b' uid p c, usage_analytics b uid p c = usage_analytics b' uid p c) := by
  refine ⟨?_, ?_, ?_, ?_, ?_⟩
  · intro s hs
    exact ⟨by simp [format_node, hs], by simp [format_node, hs]⟩
  · intro att fp cc hfp hout
    simp [stream_response, hfp, hout]
  · intro b uid p c
    rfl
  · intro b uid p c
    cases uid with
    | none => simp [usage_analytics, optTruthy]
    | some u =>
      by_cases hu : u = "" <;> by_cases hpc : 0 < p + c <;>
        simp [usage_analytics, optTruthy, hu, hpc]
  · intro b b' uid p c
    rfl

/-! ## C3: bounded exponential-backoff retry on rate limits only -/

lemma retryStep_ok (att : Nat → Attempt) (mr b attempt : Nat) (next : Option RetryOut)
    (h : (att attempt).fail = none) :
    retryStep att mr b attempt next =
      ⟨(att attempt).chunks.filter (fun c => c ≠ ""), [], none, 1⟩ := by
  unfold retryStep
  simp [h]

lemma retryStep_raise (att : Nat → Attempt) (mr b attempt : Nat) (next : Option RetryOut)
    (f : StreamFail) (h : (att attempt).fail = some f) (hf : caughtRateLimit f = false) :
    retryStep att mr b attempt next =
      ⟨(att attempt).chunks.filter (fun c => c ≠ ""), [], some f, 1⟩ := by
  unfold retryStep
  simp [h, hf]

lemma retryStep_exhaust (att : Nat → Attempt) (mr b attempt : Nat) (next : Option RetryOut)
    (f : StreamFail) (h : (att attempt).fail = some f) (hf : caughtRateLimit f = true)
    (hle : mr ≤ attempt) :
    retryStep att mr b attempt next =
      ⟨(att attempt).chunks.filter (fun c => c ≠ ""), [], some f, 1⟩ := by
  unfold retryStep
  simp [h, hf, hle]

lemma retryStep_again (att : Nat → Attempt) (mr b attempt : Nat) (r : RetryOut)
    (f : StreamFail) (h : (att attempt).fail = some f) (hf : caughtRateLimit f = true)
    (hlt : attempt < mr) :
    retryStep att mr b attempt (some r) =
      ⟨(att attempt).chunks.filter (fun c => c ≠ "") ++ r.chunks,
       b * 2 ^ attempt :: r.delays, r.outcome, r.attemptsMade + 1⟩ := by
  unfold retryStep
  simp [h, hf, Nat.not_le.mpr hlt]

/-- C3: a rate-limit failure (RESOURCE_EXHAUSTED / 429 in a caught model
error) retries the entire streaming call with delay `2 * 2 ^ attempt`
seconds, capped at 3 retries after which the failure is re-raised; a
failure without the rate-limit signal is re-raised immediately with no
retry and no delay. -/
theorem stream_retry_policy :
    (∀ att : Nat → Attempt,
      (∀ i, i ≤ 3 → ∃ f, (att i).fail = some f ∧ caughtRateLimit f = true) →
      (stream_with_retry att 3 2).delays = [2, 4, 8]
      ∧ (stream_with_retry att 3 2).outcome = (att 3).fail
      ∧ (stream_with_retry att 3 2).attemptsMade = 4)
    ∧ (∀ (att : Nat → Attempt) (f : StreamFail),
        (att 0).fail = some f → caughtRateLimit f = false →
        stream_with_retry att 3 2 =
          ⟨(att 0).chunks.filter (fun c => c ≠ ""), [], some f, 1⟩)
    ∧ (∀ (att : Nat → Attempt) (j : Nat), j ≤ 3 →
        (∀ i, i < j → ∃ f, (att i).fail = some f ∧ caughtRateLimit f = true) →
        (att j).fail = none →
        (stream_with_retry att 3 2).delays = (List.range j).map (fun i => 2 * 2 ^ i)
        ∧ (stream_with_retry att 3 2).outcome = none
        ∧ (stream_with_retry att 3 2).attemptsMade = j + 1) := by
  refine ⟨?_, ?_, ?_⟩
  · intro att h
    obtain ⟨f0, h0, r0⟩ := h 0 (by norm_num)
    obtain ⟨f1, h1, r1⟩ := h 1 (by norm_num)
    obtain ⟨f2, h2, r2⟩ := h 2 (by norm_num)
    obtain ⟨f3, h3, r3⟩ := h 3 le_rfl
    have E3 : streamRetryFrom att 3 2 3 0 =
        ⟨(att 3).chunks.filter (fun c => c ≠ ""), [], some f3, 1⟩ :=
      retryStep_exhaust att 3 2 3 none f3 h3 r3 le_rfl
    have E2 : streamRetryFrom att 3 2 2 1 =
        ⟨(att 2).chunks.filter (fun c => c ≠ "")
          ++ (att 3).chunks.filter (fun c => c ≠ ""), [8], some f3, 2⟩ := by
      show retryStep att 3 2 2 (some (streamRetryFrom att 3 2 3 0)) = _
      rw [E3, retryStep_again att 3 2 2 _ f2 h2 r2 (by norm_num)]
      simp
    have E1 : streamRetryFrom att 3 2 1 2 =
        ⟨(att 1).chunks.filter (fun c => c ≠ "")
          ++ ((att 2).chunks.filter (fun c => c ≠ "")
             ++ (att 3).chunks.filter (fun c => c ≠ "")), [4, 8], some f3, 3⟩ := by
      show retryStep att 3 2 1 (some (streamRetryFrom att 3 2 2 1)) = _
      rw [E2, retryStep_again att 3 2 1 _ f1 h1 r1 (by norm_num)]
      simp
    have E0 : stream_with_retry att 3 2 =
        ⟨(att 0).chunks.filter (fun c => c ≠ "")
          ++ ((att 1).chunks.filter (fun c => c ≠ "")
             ++ ((att 2).chunks.filter (fun c => c ≠ "")
                ++ (att 3).chunks.filter (fun c => c ≠ ""))), [2, 4, 8], some f3, 4⟩ := by
      show retryStep att 3 2 0 (some (streamRetryFrom att 3 2 1 2)) = _
      rw [E1, retryStep_again att 3 2 0 _ f0 h0 r0 (by norm_num)]
      simp
    rw [E0, h3]
    exact ⟨rfl, rfl, rfl⟩
  · intro att f h0 hf
    show retryStep att 3 2 0 (some (streamRetryFrom att 3 2 1 2)) = _
    exact retryStep_raise att 3 2 0 _ f h0 hf
  · intro att j hj hfail hok
    interval_cases j
    · have E0 : stream_with_retry att 3 2 =
          ⟨(att 0).chunks.filter (fun c => c ≠ ""), [], none, 1⟩ := by
        show retryStep att 3 2 0 (some (streamRetryFrom att 3 2 1 2)) = _
        exact retryStep_ok att 3 2 0 _ hok
      rw [E0]
      exact ⟨rfl, rfl, rfl⟩
    · obtain ⟨f0, h0, r0⟩ := hfail 0 (by norm_num)
      have E1 : streamRetryFrom att 3 2 1 2 =
          ⟨(att 1).chunks.filter (fun c => c ≠ ""), [], none, 1⟩ := by
        show retryStep att 3 2 1 (some (streamRetryFrom att 3 2 2 1)) = _
        exact retryStep_ok att 3 2 1 _ hok
      have E0 : stream_with_retry att 3 2 =
          ⟨(att 0).chunks.filter (fun c => c ≠ "")
            ++ (att 1).chunks.filter (fun c => c ≠ ""), [2], none, 2⟩ := by
        show retryStep att 3 2 0 (some (streamRetryFrom att 3 2 1 2)) = _
        rw [E1, retryStep_again att 3 2 0 _ f0 h0 r0 (by norm_num)]
        simp
      rw [E0]
      refine ⟨?_, rfl, rfl⟩
      simp [List.range_succ]
    · obtain ⟨f0, h0, r0⟩ := hfail 0 (by norm_num)
      obtain ⟨f1, h1, r1⟩ := hfail 1 (by norm_num)
      have E2 : streamRetryFrom att 3 2 2 1 =
          ⟨(att 2).chunks.filter (fun c => c ≠ ""), [], none, 1⟩ := by
        show retryStep att 3 2 2 (some (streamRetryFrom att 3 2 3 0)) = _
        exact retryStep_ok att 3 2 2 _ hok
      have E1 : streamRetryFrom att 3 2 1 2 =
          ⟨(att 1).chunks.filter (fun c => c ≠ "")
            ++ (att 2).chunks.filter (fun c => c ≠ ""), [4], none, 2⟩ := by
        show retryStep att 3 2 1 (some (streamRetryFrom att 3 2 2 1)) = _
        rw [E2, retryStep_again att 3 2 1 _ f1 h1 r1 (by norm_num)]
        simp
      have E0 : stream_with_retry att 3 2 =
          ⟨(att 0).chunks.filter (fun c => c ≠ "")
            ++ ((att 1).chunks.filter (fun c => c ≠ "")
               ++ (att 2).chunks.filter (fun c => c ≠ "")), [2, 4], none, 3⟩ := by
        show retryStep att 3 2 0 (some (streamRetryFrom att 3 2 1 2)) = _
        rw [E1, retryStep_again att 3 2 0 _ f0 h0 r0 (by norm_num)]
        simp
      rw [E0]
      refine ⟨?_, rfl, rfl⟩
      simp [List.range_succ]
    · obtain ⟨f0, h0, r0⟩ := hfail 0 (by norm_num)
      obtain ⟨f1, h1, r1⟩ := hfail 1 (by norm_num)
      obtain ⟨f2, h2, r2⟩ := hfail 2 (by norm_num)
      have E3 : streamRetryFrom att 3 2 3 0 =
          ⟨(att 3).chunks.filter (fun c => c ≠ ""), [], none, 1⟩ :=
        retryStep_ok att 3 2 3 none hok
      have E2 : streamRetryFrom att 3 2 2 1 =
          ⟨(att 2).chunks.filter (fun c => c ≠ "")
            ++ (att 3).chunks.filter (fun c => c ≠ ""), [8], none, 2⟩ := by
        show retryStep att 3 2 2 (some (streamRetryFrom att 3 2 3 0)) = _
        rw [E3, retryStep_again att 3 2 2 _ f2 h2 r2 (by norm_num)]
        simp
      have E1 : streamRetryFrom att 3 2 1 2 =
          ⟨(att 1).chunks.filter (fun c => c ≠ "")
            ++ ((att 2).chunks.filter (fun c => c ≠ "")
               ++ (att 3).chunks.filter (fun c => c ≠ "")), [4, 8], none, 3⟩ := by
        show retryStep att 3 2 1 (some (streamRetryFrom att 3 2 2 1)) = _
        rw [E2, retryStep_again att 3 2 1 _ f1 h1 r1 (by norm_num)]
        simp
      have E0 : stream_with_retry att 3 2 =
          ⟨(att 0).chunks.filter (fun c => c ≠ "")
            ++ ((att 1).chunks.filter (fun c => c ≠ "")
               ++ ((att 2).chunks.filter (fun c => c ≠ "")
                  ++ (att 3).chunks.filter (fun c => c ≠ ""))), [2, 4, 8], none, 4⟩ := by
        show retryStep att 3 2 0 (some (streamRetryFrom att 3 2 1 2)) = _
        rw [E1, retryStep_again att 3 2 0 _ f0 h0 r0 (by norm_num)]
        simp
      rw [E0]
      refine ⟨?_, rfl, rfl⟩
      simp [List.range_succ]

/-! ## C2: what the final reply contains after retried streaming -/

/-- C2 (amended): when the stream rate-limits on the first two attempts
and succeeds on the third, the final reply is the concatenation of the
non-empty chunks of all three attempts in order — chunks already yielded
by a failed attempt are retained, since the accumulator is not reset on
retry; the reply equals the third attempt's chunks alone exactly in the
case that the two failed attempts yielded nothing. -/
theorem stream_retry_concat (att : Nat → Attempt) (fp cc : String)
    (c0 c1 c2 : List String) (f0 f1 : StreamFail)
    (hfp : fp ≠ "")
    (h0 : att 0 = ⟨c0, some f0⟩) (r0 : caughtRateLimit f0 = true)
    (h1 : att 1 = ⟨c1, some f1⟩) (r1 : caughtRateLimit f1 = true)
    (h2 : att 2 = ⟨c2, none⟩) :
    (stream_response att fp cc).1
      = String.join ((c0 ++ c1 ++ c2).filter (fun c => c ≠ ""))
    ∧ (c0 = [] → c1 = [] →
        (stream_response att fp cc).1 = String.join (c2.filter (fun c => c ≠ ""))) := by
  have hf0 : (att 0).fail = some f0 := by rw [h0]
  have hf1 : (att 1).fail = some f1 := by rw [h1]
  have hf2 : (att 2).fail = none := by rw [h2]
  have hc0 : (att 0).chunks = c0 := by rw [h0]
  have hc1 : (att 1).chunks = c1 := by rw [h1]
  have hc2 : (att 2).chunks = c2 := by rw [h2]
  have E2 : streamRetryFrom att 3 2 2 1 =
      ⟨c2.filter (fun c => c ≠ ""), [], none, 1⟩ := by
    show retryStep att 3 2 2 (some (streamRetryFrom att 3 2 3 0)) = _
    rw [retryStep_ok att 3 2 2 _ hf2, hc2]
  have E1 : streamRetryFrom att 3 2 1 2 =
      ⟨c1.filter (fun c => c ≠ "") ++ c2.filter (fun c => c ≠ ""), [4], none, 2⟩ := by
    show retryStep att 3 2 1 (some (streamRetryFrom att 3 2 2 1)) = _
    rw [E2, retryStep_again att 3 2 1 _ f1 hf1 r1 (by norm_num), hc1]
    simp
  have E0 : stream_with_retry att 3 2 =
      ⟨c0.filter (fun c => c ≠ "")
        ++ (c1.filter (fun c => c ≠ "") ++ c2.filter (fun c => c ≠ "")),
       [2, 4], none, 3⟩ := by
    show retryStep att 3 2 0 (some (streamRetryFrom att 3 2 1 2)) = _
    rw [E1, retryStep_again att 3 2 0 _ f0 hf0 r0 (by norm_num), hc0]
    simp
  constructor
  · simp [stream_response, hfp, E0, List.filter_append, List.append_assoc]
  · intro e0 e1
    subst e0
    subst e1
    simp [stream_response, hfp, E0]

/-- C2 counterexample: with one chunk yielded before each of the two
rate-limited failures, the final reply is "abc", not the successful
third attempt's "c" alone. -/
theorem stream_retry_concat_counterexample :
    (stream_response attemptsRetry "p" "").1 = "abc"
    ∧ (stream_response attemptsRetry "p" "").1 ≠ "c" := by
  decide

/-- Witness for C2's amended statement at the concrete retry scenario. -/
theorem stream_retry_concat_witness :
    (stream_response attemptsRetry "p" "").1
      = String.join (((["a"] ++ ["b"] ++ ["c"] : List String)).filter (fun c => c ≠ "")) :=
  (stream_retry_concat attemptsRetry "p" "" ["a"] ["b"] ["c"]
    (.googleErr "429 quota hit") (.googleErr "RESOURCE_EXHAUSTED")
    (by decide) rfl (by decide) rfl (by decide) rfl).1

/-! ## C1: the turn with no usable results -/

lemma normalize_format_prompt (s : PState) :
    (normalize_node s).format_prompt = s.format_prompt := by
  unfold normalize_node
  cases lastUserContent s.messages <;> rfl

lemma format_hr (s : PState) : (format_node s).has_results = s.has_results := by
  unfold format_node
  split <;> rfl

lemma checkpoint_hr (s : PState) : (checkpoint_node s).has_results = s.has_results := by
  unfold checkpoint_node
  split <;> rfl

lemma checkpoint_pt (s : PState) : (checkpoint_node s).prompt_tokens = s.prompt_tokens := by
  unfold checkpoint_node
  split <;> rfl

lemma checkpoint_ct (s : PState) :
    (checkpoint_node s).completion_tokens = s.completion_tokens := by
  unfold checkpoint_node
  split <;> rfl

lemma checkpoint_fr (s : PState) :
    (checkpoint_node s).formatted_response = s.formatted_response := by
  unfold checkpoint_node
  split <;> rfl

lemma ifixit_node_fst_fp (o : Oracles) (s : PState) :
    (ifixit_node o s).1.format_prompt = s.format_prompt := rfl

lemma route_node_fp (s : PState) : (route_node s).format_prompt = s.format_prompt := rfl

lemma web_node_fst_fp (o : Oracles) (s : PState) :
    (web_node o s).1.format_prompt = s.format_prompt := rfl

lemma manage_node_fp (s : PState) : (manage_node s).format_prompt = s.format_prompt := rfl

lemma stream_node_fst_hr (o : Oracles) (s : PState) :
    (stream_node o s).1.has_results = s.has_results := rfl

lemma usage_node_fst_hr (o : Oracles) (s : PState) :
    (usage_node o s).1.has_results = s.has_results := rfl

lemma usage_node_fst_pt (o : Oracles) (s : PState) :
    (usage_node o s).1.prompt_tokens = s.prompt_tokens := rfl

lemma usage_node_fst_ct (o : Oracles) (s : PState) :
    (usage_node o s).1.completion_tokens = s.completion_tokens := rfl

lemma usage_node_fst_fr (o : Oracles) (s : PState) :
    (usage_node o s).1.formatted_response = s.formatted_response := rfl

lemma stream_node_fst_pt (o : Oracles) (s : PState) :
    (stream_node o s).1.prompt_tokens = s.prompt_tokens := rfl

lemma stream_node_fst_fr (o : Oracles) (s : PState) :
    (stream_node o s).1.formatted_response
      = (stream_response o.attempts s.format_prompt s.combined_context).1 := rfl

lemma stream_node_fst_ct (o : Oracles) (s : PState) :
    (stream_node o s).1.completion_tokens
      = (stream_response o.attempts s.format_prompt s.combined_context).2.1 := rfl

lemma stream_node_snd_mc (o : Oracles) (s : PState) :
    (stream_node o s).2.modelCalls
      = (stream_response o.attempts s.format_prompt s.combined_context).2.2 := rfl

lemma usage_node_snd_mc (o : Oracles) (s : PState) : (usage_node o s).2.modelCalls = 0 := rfl

lemma ifixit_node_snd_mc (o : Oracles) (s : PState) : (ifixit_node o s).2.modelCalls = 0 := rfl

lemma web_node_snd_mc (o : Oracles) (s : PState) : (web_node o s).2.modelCalls = 0 := rfl

lemma runToFormat_snd_mc (o : Oracles) (uid : Option String) (msgs : List Msg) :
    (runToFormat o uid msgs).2.modelCalls = 0 := by
  simp only [runToFormat, Trace.append, ifixit_node_snd_mc, web_node_snd_mc]

lemma format_node_false (s : PState) (h : s.has_results = false) :
    format_node s = { s with formatted_response := couldntFindMsg, prompt_tokens := 0 } := by
  unfold format_node
  rw [h]
  simp

lemma stream_response_empty (att : Nat → Attempt) (cc : String) :
    stream_response att "" cc = ("Unable to format response.", 0, 0) := rfl

lemma stage5_hr_eq (o : Oracles) (uid : Option String) (msgs : List Msg) :
    (runPipeline o uid msgs).1.has_results
      = (manage_node ((web_node o (route_node ((ifixit_node o (normalize_node
          { user_id := uid, messages := msgs })).1))).1)).has_results := by
  simp only [runPipeline, runToFormat, checkpoint_hr, usage_node_fst_hr, stream_node_fst_hr,
    format_hr]

lemma stage5_format_prompt (o : Oracles) (uid : Option String) (msgs : List Msg) :
    (manage_node ((web_node o (route_node ((ifixit_node o (normalize_node
      { user_id := uid, messages := msgs })).1))).1)).format_prompt = "" := by
  simp only [manage_node_fp, web_node_fst_fp, route_node_fp, ifixit_node_fst_fp,
    normalize_format_prompt]

/-- C1 (amended): in every turn where `has_results` is false after
context assembly, no model call is made and both token estimates are 0;
`format_markdown` does write the fixed couldn't-find reply, but
`stream_response` — seeing the empty `format_prompt` — then overwrites
it, so the reply delivered at the end of the pipeline is
"Unable to format response.", not the couldn't-find message. -/
theorem no_results_path (o : Oracles) (uid : Option String) (msgs : List Msg)
    (h : (runPipeline o uid msgs).1.has_results = false) :
    (runPipeline o uid msgs).2.modelCalls = 0
    ∧ (runPipeline o uid msgs).1.prompt_tokens = 0
    ∧ (runPipeline o uid msgs).1.completion_tokens = 0
    ∧ (runToFormat o uid msgs).1.formatted_response = couldntFindMsg
    ∧ (runPipeline o uid msgs).1.formatted_response = "Unable to format response." := by
  have h5 : (manage_node ((web_node o (route_node ((ifixit_node o (normalize_node
      { user_id := uid, messages := msgs })).1))).1)).has_results = false := by
    rw [← stage5_hr_eq o uid msgs]
    exact h
  have h6 : (runToFormat o uid msgs).1 =
      { (manage_node ((web_node o (route_node ((ifixit_node o (normalize_node
          { user_id := uid, messages := msgs })).1))).1)) with
        formatted_response := couldntFindMsg, prompt_tokens := 0 } := by
    simp only [runToFormat]
    exact format_node_false _ h5
  have hXfp : (runToFormat o uid msgs).1.format_prompt = "" := by
    rw [h6]
    exact stage5_format_prompt o uid msgs
  have h7 : stream_response o.attempts ((runToFormat o uid msgs).1).format_prompt
      ((runToFormat o uid msgs).1).combined_context =
      ("Unable to format response.", 0, 0) := by
    rw [hXfp]
    exact stream_response_empty o.attempts _
  refine ⟨?_, ?_, ?_, ?_, ?_⟩
  · simp only [runPipeline, Trace.append, runToFormat_snd_mc, stream_node_snd_mc,
      usage_node_snd_mc, h7]
  · simp only [runPipeline, checkpoint_pt, usage_node_fst_pt, stream_node_fst_pt, h6]
  · simp only [runPipeline, checkpoint_ct, usage_node_fst_ct, stream_node_fst_ct, h7]
  · rw [h6]
  · simp only [runPipeline, checkpoint_fr, usage_node_fst_fr, stream_node_fst_fr, h7]

/-- C1 counterexample: in a concrete turn with no usable results the
delivered reply is "Unable to format response.", not the fixed
couldn't-find message the claim states. -/
theorem no_results_path_counterexample :
    (runPipeline oraclesDown none []).1.has_results = false
    ∧ (runPipeline oraclesDown none []).1.formatted_response ≠ couldntFindMsg := by
  decide

/-- Witness for C1's amended statement on a concrete empty turn. -/
theorem no_results_path_witness :
    (runPipeline oraclesDown none []).2.modelCalls = 0
    ∧ (runPipeline oraclesDown none []).1.prompt_tokens = 0
    ∧ (runPipeline oraclesDown none []).1.completion_tokens = 0
    ∧ (runToFormat oraclesDown none []).1.formatted_response = couldntFindMsg
    ∧ (runPipeline oraclesDown none []).1.formatted_response
        = "Unable to format response." :=
  no_results_path oraclesDown none [] (by decide)

end RepairFix
